import Mathlib

/-!
Verification of the Nucleus CA issuance service (src/auth/src/auth.c).

The file shallowly embeds the C program: configuration constants and the
OpenSSL objects it manipulates become Lean structures, each C function
becomes a Lean function over those structures, and the fallible OpenSSL
library calls are modelled with explicit success/failure inputs so that
every control-flow path of the C code (including the goto err paths)
appears as a branch of the corresponding Lean definition.
-/

namespace Auth

/-! ### Configuration constants (auth.c lines 27-39) -/

def RSA_SERVER_CERT : String := "server.crt"

def RSA_SERVER_KEY : String := "server.key"

/-- auth.c line 29: the RSA modulus width. -/
def RSA_KEY_BITS : Nat := 4096

/-- OpenSSL constant RSA_F4, the public exponent 0x10001 passed at line 84. -/
def RSA_F4 : Nat := 65537

/-- auth.c line 31: the listening port. -/
def PORT : Nat := 8000

def REQ_DN_C : String := "US"

def REQ_DN_ST : String := "MI"

def REQ_DN_L : String := ""

def REQ_DN_O : String := "Grand Valley State University"

def REQ_DN_OU : String := "IT"

def REQ_DN_CN : String := "www.gvsu.edu"

/-! ### Hash algorithms -/

/-- The message-digest algorithms relevant to the spec (which demands
SHA-256 or stronger and forbids MD5/SHA-1). -/
inductive HashAlg
  | md5
  | sha1
  | sha256
  | sha384
  | sha512
deriving DecidableEq

/-- The EVP_sha256() digest passed to X509_REQ_sign at auth.c line 99. -/
def EVP_sha256 : HashAlg := HashAlg.sha256

/-! ### Keys

An RSA key pair is modelled by its generation parameters (modulus width,
public exponent) plus a natural number standing for the random modulus,
which identifies the pair.  The public half shares the modulus; a private
key corresponds to a certificate precisely when the public halves agree. -/

structure RSAKey where
  bits : Nat
  exp : Nat
  modulus : Nat
deriving DecidableEq

structure PublicKey where
  bits : Nat
  exp : Nat
  modulus : Nat
deriving DecidableEq

/-- The public half of a key pair. -/
def RSAKey.pub (k : RSAKey) : PublicKey :=
  ⟨k.bits, k.exp, k.modulus⟩

/-! ### Distinguished names (X509_NAME)

An ordered list of (attribute, value) entries, exactly what the six
X509_NAME_add_entry_by_txt calls of auth.c lines 91-96 build up. -/

abbrev X509_NAME := List (String × String)

/-- X509_NAME_add_entry_by_txt appends one (field, value) entry. -/
def X509_NAME_add_entry_by_txt (name : X509_NAME) (field : String) (value : String) :
    X509_NAME :=
  name ++ [(field, value)]

/-! ### Certificate signing requests (X509_REQ) -/

/-- The to-be-signed content of a CSR: subject name and embedded public
key (none while X509_REQ_set_pubkey has not run). -/
structure CsrContent where
  subject : X509_NAME
  pubkey : Option PublicKey
deriving DecidableEq

/-- A signature over a CSR: the content that was signed, the public half
of the signing key, and the digest algorithm. -/
structure CsrSignature where
  content : CsrContent
  signer : PublicKey
  alg : HashAlg
deriving DecidableEq

structure X509_REQ where
  subject : X509_NAME
  pubkey : Option PublicKey
  signature : Option CsrSignature
deriving DecidableEq

/-- X509_REQ_new: an empty request. -/
def X509_REQ_new : X509_REQ :=
  ⟨[], none, none⟩

/-- X509_REQ_set_pubkey embeds the public half of the key. -/
def X509_REQ_set_pubkey (req : X509_REQ) (key : RSAKey) : X509_REQ :=
  { req with pubkey := some key.pub }

/-- X509_REQ_sign: attach a signature by key over the current content. -/
def X509_REQ_sign (req : X509_REQ) (key : RSAKey) (alg : HashAlg) : X509_REQ :=
  { req with signature := some ⟨⟨req.subject, req.pubkey⟩, key.pub, alg⟩ }

/-- X509_REQ_verify: the signature must be present, cover the current
content of the request, and have been made by the key whose public half
is supplied. -/
def X509_REQ_verify (req : X509_REQ) (pub : PublicKey) : Bool :=
  match req.signature with
  | some s => s.content == ⟨req.subject, req.pubkey⟩ && s.signer == pub
  | none => false

/-! ### Certificates (X509) -/

/-- The to-be-signed content of a certificate. -/
structure CertContent where
  subject : X509_NAME
  issuer : X509_NAME
  serial : Nat
  pubkey : PublicKey
  notBefore : Nat
  notAfter : Nat
deriving DecidableEq

structure CertSignature where
  content : CertContent
  signer : PublicKey
  alg : HashAlg
deriving DecidableEq

structure X509 where
  content : CertContent
  signature : Option CertSignature
deriving DecidableEq

/-- X509_sign: attach a CA signature over the certificate content. -/
def X509_sign (crt : X509) (key : RSAKey) (alg : HashAlg) : X509 :=
  { crt with signature := some ⟨crt.content, key.pub, alg⟩ }

/-- X509_verify: check the signature against a public key. -/
def X509_verify (crt : X509) (pub : PublicKey) : Bool :=
  match crt.signature with
  | some s => s.content == crt.content && s.signer == pub
  | none => false

/-! ### generate_csr (auth.c lines 74-107)

The fallible library calls made by generate_csr (EVP_PKEY_new,
X509_REQ_new allocation, RSA_generate_key / EVP_PKEY_assign_RSA,
X509_REQ_sign) are modelled by an environment of success flags plus the
randomness consumed by key generation.  The two out-parameters are
returned as Option values: some x means the caller receives the live
object x, none means the slot holds nothing usable (NULL, or freed by
the error handler at lines 103-106, which discards both objects). -/

structure CsrEnv where
  pkeyNewOk : Bool
  reqNewOk : Bool
  rsaGenOk : Bool
  signOk : Bool
  modulusSeed : Nat
deriving DecidableEq

structure CsrResult where
  ret : Nat
  key : Option RSAKey
  req : Option X509_REQ
deriving DecidableEq

/-- RSA_generate_key(RSA_KEY_BITS, RSA_F4, NULL, NULL) at auth.c line 84:
on success, a fresh key with the requested width and exponent. -/
def RSA_generate_key (bits : Nat) (e : Nat) (env : CsrEnv) : Option RSAKey :=
  if env.rsaGenOk then some ⟨bits, e, env.modulusSeed⟩ else none

/-- auth.c lines 74-107.  Each early branch is one goto err path; the
error handler frees both out-objects and returns 0, so both out-slots
are none on every failing path. -/
def generate_csr (env : CsrEnv) : CsrResult :=
  -- line 76: *key = EVP_PKEY_new(); if (!*key) goto err;
  if env.pkeyNewOk = false then ⟨0, none, none⟩
  -- line 80: *req = X509_REQ_new(); if (!*req) goto err;
  else if env.reqNewOk = false then ⟨0, none, none⟩
  else
    -- lines 84-85: RSA_generate_key + EVP_PKEY_assign_RSA; goto err on failure
    match RSA_generate_key RSA_KEY_BITS RSA_F4 env with
    | none => ⟨0, none, none⟩
    | some rsa =>
      -- line 87: X509_REQ_set_pubkey(*req, *key)
      let req0 := X509_REQ_set_pubkey X509_REQ_new rsa
      -- lines 90-96: X509_NAME_add_entry_by_txt, six fixed DN entries
      let name := req0.subject
      let name := X509_NAME_add_entry_by_txt name ("C") REQ_DN_C
      let name := X509_NAME_add_entry_by_txt name ("ST") REQ_DN_ST
      let name := X509_NAME_add_entry_by_txt name ("L") REQ_DN_L
      let name := X509_NAME_add_entry_by_txt name ("O") REQ_DN_O
      let name := X509_NAME_add_entry_by_txt name ("OU") REQ_DN_OU
      let name := X509_NAME_add_entry_by_txt name ("CN") REQ_DN_CN
      let req1 := { req0 with subject := name }
      -- line 99: if (!X509_REQ_sign(*req, *key, EVP_sha256())) goto err;
      if env.signOk = false then ⟨0, none, none⟩
      else ⟨1, some rsa, some (X509_REQ_sign req1 rsa EVP_sha256)⟩

/-! ### PEM text (the byte content of a PEM block)

The PEM body is modelled as a list of tokens; the OpenSSL writers
serialise an object into such a list and the readers parse it back.
A block also records its header label and, for private keys, the
encryption cipher applied to the body (none when the key material is
written in plaintext, as PEM_write_bio_PrivateKey does when its cipher
argument is NULL). -/

inductive Tok
  | nat (n : Nat)
  | str (s : String)
deriving DecidableEq

structure PemBlock where
  header : String
  body : List Tok
  cipher : Option Nat
deriving DecidableEq

def PEM_HDR_CERT : String := "CERTIFICATE"

def PEM_HDR_KEY : String := "PRIVATE KEY"

def PEM_HDR_ENC_KEY : String := "ENCRYPTED PRIVATE KEY"

def hashCode : HashAlg → Nat
  | HashAlg.md5 => 0
  | HashAlg.sha1 => 1
  | HashAlg.sha256 => 2
  | HashAlg.sha384 => 3
  | HashAlg.sha512 => 4

def hashOfCode : Nat → Option HashAlg
  | 0 => some HashAlg.md5
  | 1 => some HashAlg.sha1
  | 2 => some HashAlg.sha256
  | 3 => some HashAlg.sha384
  | 4 => some HashAlg.sha512
  | _ => none

/-! #### Serialisers -/

def encodePairs : X509_NAME → List Tok
  | [] => []
  | (k, v) :: rest => Tok.str k :: Tok.str v :: encodePairs rest

def encodeName (n : X509_NAME) : List Tok :=
  Tok.nat n.length :: encodePairs n

def encodePub (p : PublicKey) : List Tok :=
  [Tok.nat p.bits, Tok.nat p.exp, Tok.nat p.modulus]

def encodeKey (k : RSAKey) : List Tok :=
  [Tok.nat k.bits, Tok.nat k.exp, Tok.nat k.modulus]

def encodeCertContent (c : CertContent) : List Tok :=
  encodeName c.subject ++
    (encodeName c.issuer ++
      (Tok.nat c.serial ::
        (encodePub c.pubkey ++ [Tok.nat c.notBefore, Tok.nat c.notAfter])))

def encodeCertSig : Option CertSignature → List Tok
  | none => [Tok.nat 0]
  | some s =>
    Tok.nat 1 :: (encodeCertContent s.content ++ (encodePub s.signer ++ [Tok.nat (hashCode s.alg)]))

def encodeX509 (c : X509) : List Tok :=
  encodeCertContent c.content ++ encodeCertSig c.signature

/-! #### Parsers -/

def parsePairs : Nat → List Tok → Option (X509_NAME × List Tok)
  | 0, ts => some ([], ts)
  | n + 1, Tok.str k :: Tok.str v :: ts =>
    match parsePairs n ts with
    | some (ps, rest) => some ((k, v) :: ps, rest)
    | none => none
  | _ + 1, _ => none

def parseName : List Tok → Option (X509_NAME × List Tok)
  | Tok.nat n :: ts => parsePairs n ts
  | _ => none

def parsePub : List Tok → Option (PublicKey × List Tok)
  | Tok.nat b :: Tok.nat e :: Tok.nat m :: ts => some (⟨b, e, m⟩, ts)
  | _ => none

def parseKey : List Tok → Option (RSAKey × List Tok)
  | Tok.nat b :: Tok.nat e :: Tok.nat m :: ts => some (⟨b, e, m⟩, ts)
  | _ => none

def parseCertContent (ts : List Tok) : Option (CertContent × List Tok) :=
  match parseName ts with
  | none => none
  | some (sub, ts1) =>
    match parseName ts1 with
    | none => none
    | some (iss, ts2) =>
      match ts2 with
      | Tok.nat serial :: ts3 =>
        match parsePub ts3 with
        | none => none
        | some (pk, ts4) =>
          match ts4 with
          | Tok.nat nb :: Tok.nat na :: ts5 => some (⟨sub, iss, serial, pk, nb, na⟩, ts5)
          | _ => none
      | _ => none

def parseCertSig (ts : List Tok) : Option (Option CertSignature × List Tok) :=
  match ts with
  | Tok.nat 0 :: ts1 => some (none, ts1)
  | Tok.nat 1 :: ts1 =>
    match parseCertContent ts1 with
    | none => none
    | some (c, ts2) =>
      match parsePub ts2 with
      | none => none
      | some (signer, ts3) =>
        match ts3 with
        | Tok.nat h :: ts4 =>
          match hashOfCode h with
          | some alg => some (some ⟨c, signer, alg⟩, ts4)
          | none => none
        | _ => none
  | _ => none

def parseX509 (ts : List Tok) : Option (X509 × List Tok) :=
  match parseCertContent ts with
  | none => none
  | some (c, ts1) =>
    match parseCertSig ts1 with
    | none => none
    | some (s, ts2) => some (⟨c, s⟩, ts2)

/-! ### PEM readers and writers (the OpenSSL calls used by auth.c) -/

/-- PEM_write_bio_X509: serialise a certificate into a PEM block. -/
def PEM_write_bio_X509 (c : X509) : PemBlock :=
  ⟨PEM_HDR_CERT, encodeX509 c, none⟩

/-- A toy cipher for the encrypted branch of PEM_write_bio_PrivateKey:
it shifts every numeric token so encrypted output is not the plaintext. -/
def encryptToks (c : Nat) (ts : List Tok) : List Tok :=
  ts.map fun t =>
    match t with
    | Tok.nat n => Tok.nat (n + c + 1)
    | Tok.str s => Tok.str s

/-- PEM_write_bio_PrivateKey with its cipher argument: NULL (none) writes
the key material in plaintext, a cipher encrypts the body. -/
def PEM_write_bio_PrivateKey (k : RSAKey) (cipher : Option Nat) : PemBlock :=
  match cipher with
  | none => ⟨PEM_HDR_KEY, encodeKey k, none⟩
  | some c => ⟨PEM_HDR_ENC_KEY, encryptToks c (encodeKey k), some c⟩

/-- PEM_read_bio_X509: accept a plaintext CERTIFICATE block whose body
parses completely; reject everything else. -/
def PEM_read_bio_X509 (b : PemBlock) : Option X509 :=
  if b.header = PEM_HDR_CERT ∧ b.cipher = none then
    match parseX509 b.body with
    | some (c, []) => some c
    | _ => none
  else none

/-- PEM_read_bio_PrivateKey (no passphrase callback, as in auth.c):
accept a plaintext PRIVATE KEY block whose body parses completely. -/
def PEM_read_bio_PrivateKey (b : PemBlock) : Option RSAKey :=
  if b.header = PEM_HDR_KEY ∧ b.cipher = none then
    match parseKey b.body with
    | some (k, []) => some k
    | _ => none
  else none

/-! ### crt_to_pem and key_to_pem (auth.c lines 137-166)

Both functions write the object into a memory BIO, take the pending
byte count as the output size, and copy exactly that many bytes into a
fresh buffer.  The out-parameters (bytes, size) become the two fields
of PemOut. -/

structure PemOut where
  bytes : PemBlock
  size : Nat
deriving DecidableEq

/-- auth.c lines 137-149. -/
def crt_to_pem (crt : X509) : PemOut :=
  -- line 140: PEM_write_bio_X509(bio, crt)
  let mem := PEM_write_bio_X509 crt
  -- line 143: *crt_size = BIO_pending(bio); line 146: BIO_read of that many bytes
  ⟨mem, mem.body.length⟩

/-- auth.c lines 156-166.  Line 159 passes NULL for the cipher and NULL
for the passphrase, so the key is written unencrypted. -/
def key_to_pem (key : RSAKey) : PemOut :=
  let mem := PEM_write_bio_PrivateKey key none
  ⟨mem, mem.body.length⟩

/-! ### load_ca (auth.c lines 173-202)

The two files are modelled by their readable content: none when
BIO_read_filename fails (file absent or unreadable), some pem when the
file holds the bytes pem.  The result carries the C return value and
the two out-parameters; none in an out-slot is a NULL or freed pointer. -/

structure CaFiles where
  crtFile : Option PemBlock
  keyFile : Option PemBlock
deriving DecidableEq

structure LoadCaResult where
  ret : Nat
  ca_key : Option RSAKey
  ca_crt : Option X509
deriving DecidableEq

/-- auth.c lines 173-202.  The error label frees both out-objects, so
every goto err path yields ⟨0, none, none⟩.  Note line 189: the code
tests the out-parameter pointer ca_key (never NULL) instead of the
decoded key *ca_key, so a failed private-key decode is not detected and
the function still returns 1. -/
def load_ca (files : CaFiles) : LoadCaResult :=
  -- lines 175-176: *ca_crt = NULL; *ca_key = NULL;
  match files.crtFile with
  -- line 180: if (!BIO_read_filename(bio, ca_crt_path)) goto err;
  | none => ⟨0, none, none⟩
  | some crtPem =>
    -- line 181: *ca_crt = PEM_read_bio_X509(bio, NULL, NULL, NULL);
    match PEM_read_bio_X509 crtPem with
    -- line 182: if (!*ca_crt) goto err;
    | none => ⟨0, none, none⟩
    | some ca_crt =>
      match files.keyFile with
      -- line 187: if (!BIO_read_filename(bio, ca_key_path)) goto err;
      | none => ⟨0, none, none⟩
      | some keyPem =>
        -- line 188: *ca_key = PEM_read_bio_PrivateKey(bio, NULL, NULL, NULL);
        let ca_key := PEM_read_bio_PrivateKey keyPem
        -- line 189: if (!ca_key) goto err;  -- tests the parameter, never true,
        -- so even a none decode falls through to the success return
        ⟨1, ca_key, some ca_crt⟩

/-! ### The certificate issuer -/

/-- The per-issuance environment: the random serial draw, the current
time and the configured certificate lifetime (spec section 6 lists the
lifetime among the fixed configuration values). -/
structure IssueEnv where
  serialSeed : Nat
  now : Nat
  lifetime : Nat
deriving DecidableEq

/-- Modelled from the spec: generate_signed_key_pair, the issuer
(spec section 4.4, issue(csr, ca_identity)), has an empty body in the
source (auth.c lines 210-212); the spec treats it as a gap to be filled
per section 4.4.  Steps: (1) verify the CSR self-signature against the
embedded public key, failing otherwise; (2) draw a fresh serial with the
top bit cleared; (3) build the certificate with subject and public key
from the CSR, issuer copied from the CA root certificate subject and
validity window [now, now + lifetime]; (4) sign with the CA private key
under a modern hash; (5) return it.  none models the error outcomes. -/
def generate_signed_key_pair (ca_key : RSAKey) (ca_crt : X509) (csr : X509_REQ)
    (env : IssueEnv) : Option X509 :=
  match csr.pubkey with
  | none => none
  | some pk =>
    if X509_REQ_verify csr pk = false then none
    else
      let serial := env.serialSeed % 2 ^ 63
      let crt : X509 :=
        ⟨⟨csr.subject, ca_crt.content.subject, serial, pk, env.now, env.now + env.lifetime⟩,
          none⟩
      some (X509_sign crt ca_key EVP_sha256)

/-! ### The issuance server loop -/

inductive Request
  | malformed
  | wellFormed (csr : X509_REQ)
deriving DecidableEq

inductive Response
  | errorResponse
  | certificate (pem : PemBlock)
deriving DecidableEq

/-- Modelled from the spec: the per-connection handling of the server
loop (spec sections 4.5 and 7).  server_loop is declared at auth.c
line 57 but never defined in the source.  A request that fails to
decode, or whose issuance fails, yields a well-defined error response;
a successful issuance yields the PEM-encoded certificate. -/
def handle_connection (ca_key : RSAKey) (ca_crt : X509) (env : IssueEnv) :
    Request → Response
  | Request.malformed => Response.errorResponse
  | Request.wellFormed csr =>
    match generate_signed_key_pair ca_key ca_crt csr env with
    | none => Response.errorResponse
    | some crt => Response.certificate (crt_to_pem crt).bytes

/-- Modelled from the spec: server_loop (spec section 4.5), declared at
auth.c line 57 but never defined in the source.  The loop serves the
accepted connections in order, answering each with handle_connection;
no request outcome stops the iteration. -/
def server_loop (ca_key : RSAKey) (ca_crt : X509) :
    List (Request × IssueEnv) → List Response
  | [] => []
  | (req, env) :: rest =>
    handle_connection ca_key ca_crt env req :: server_loop ca_key ca_crt rest

/-! ### Process lifecycle (initialize, cleanup, main)

main (auth.c lines 218-222) is a straight-line sequence of library
calls, so it is embedded as the trace of calls it performs. -/

inductive Event
  | loadCryptoStrings
  | addAllAlgorithms
  | opensslConfig
  | loadCaCall
  | socketBind
  | socketListen
  | serverLoopCall
  | issueCall
  | cleanupCall
deriving DecidableEq

/-- auth.c lines 114-118, the function named initialize in the source:
ERR_load_crypto_strings, OpenSSL_add_all_algorithms, OPENSSL_config. -/
def initCrypto : List Event :=
  [Event.loadCryptoStrings, Event.addAllAlgorithms, Event.opensslConfig]

/-- auth.c lines 125-130, the cleanup function: the teardown calls,
summarised as the single cleanupCall event when invoked. -/
def cleanupTrace : List Event :=
  [Event.cleanupCall]

/-- auth.c lines 218-222: the body of main calls initialize() and
nothing else before returning. -/
def main : List Event :=
  initCrypto

/-! ### Concrete inputs used to exercise the definitions -/

def keyOk : RSAKey := ⟨RSA_KEY_BITS, RSA_F4, 0⟩

def dnOk : X509_NAME :=
  [("C", REQ_DN_C), ("ST", REQ_DN_ST), ("L", REQ_DN_L),
   ("O", REQ_DN_O), ("OU", REQ_DN_OU), ("CN", REQ_DN_CN)]

def reqOk : X509_REQ :=
  X509_REQ_sign ⟨dnOk, some keyOk.pub, none⟩ keyOk EVP_sha256

def envOk : CsrEnv := ⟨true, true, true, true, 0⟩

def envNoSign : CsrEnv := ⟨true, true, true, false, 0⟩

def caCrtGood : X509 :=
  ⟨⟨[("CN", "Nucleus Root CA")], [("CN", "Nucleus Root CA")], 7, ⟨4096, 65537, 21⟩, 0, 1000⟩,
    none⟩

/-- A readable key file whose body is not a private key, so the PEM
private-key parse fails. -/
def badKeyPem : PemBlock := ⟨PEM_HDR_KEY, [Tok.nat 0], none⟩

/-- A CA private key whose public half does not match the public key
embedded in caCrtGood (modulus 99 against 21). -/
def caKeyMismatch : RSAKey := ⟨4096, 65537, 99⟩

/-- A CA signing key matching nothing in particular, for issuance runs. -/
def caKeyW : RSAKey := ⟨4096, 65537, 21⟩

def issueEnvW : IssueEnv := ⟨12345, 1000, 3600⟩

/-! ## Helper lemmas -/

theorem hashOfCode_hashCode (a : HashAlg) : hashOfCode (hashCode a) = some a := by
  cases a <;> rfl

theorem parsePairs_encodePairs (n : X509_NAME) (ts : List Tok) :
    parsePairs n.length (encodePairs n ++ ts) = some (n, ts) := by
  induction n with
  | nil => rfl
  | cons p rest ih =>
    obtain ⟨k, v⟩ := p
    simp [encodePairs, parsePairs, ih]

theorem parseName_encodeName (n : X509_NAME) (ts : List Tok) :
    parseName (encodeName n ++ ts) = some (n, ts) := by
  simp [encodeName, parseName, parsePairs_encodePairs]

theorem parsePub_encodePub (p : PublicKey) (ts : List Tok) :
    parsePub (encodePub p ++ ts) = some (p, ts) := rfl

theorem parseKey_encodeKey (k : RSAKey) (ts : List Tok) :
    parseKey (encodeKey k ++ ts) = some (k, ts) := rfl

theorem parseCertContent_encodeCertContent (c : CertContent) (ts : List Tok) :
    parseCertContent (encodeCertContent c ++ ts) = some (c, ts) := by
  simp [encodeCertContent, parseCertContent, List.append_assoc,
    parseName_encodeName, parsePub_encodePub]

theorem parseCertSig_encodeCertSig (s : Option CertSignature) (ts : List Tok) :
    parseCertSig (encodeCertSig s ++ ts) = some (s, ts) := by
  cases s with
  | none => rfl
  | some sig =>
    simp [encodeCertSig, parseCertSig, List.append_assoc,
      parseCertContent_encodeCertContent, parsePub_encodePub, hashOfCode_hashCode]

theorem parseX509_encodeX509 (c : X509) (ts : List Tok) :
    parseX509 (encodeX509 c ++ ts) = some (c, ts) := by
  simp [encodeX509, parseX509, List.append_assoc,
    parseCertContent_encodeCertContent, parseCertSig_encodeCertSig]

theorem parseX509_encodeX509_nil (c : X509) : parseX509 (encodeX509 c) = some (c, []) := by
  have h := parseX509_encodeX509 c []
  simpa using h

theorem parseKey_encodeKey_nil (k : RSAKey) : parseKey (encodeKey k) = some (k, []) := by
  have h := parseKey_encodeKey k []
  simpa using h

/-- The shape of every successful run of generate_csr: the key is the
freshly generated 4096-bit RSA key and the request is the fixed-DN
request carrying that key, self-signed with SHA-256. -/
theorem generate_csr_success_shape (env : CsrEnv) (k : RSAKey) (r : X509_REQ)
    (h : generate_csr env = ⟨1, some k, some r⟩) :
    k = ⟨RSA_KEY_BITS, RSA_F4, env.modulusSeed⟩ ∧
    r = X509_REQ_sign ⟨dnOk, some k.pub, none⟩ k EVP_sha256 := by
  obtain ⟨pk, rq, rg, sg, seed⟩ := env
  cases pk <;> cases rq <;> cases rg <;> cases sg <;>
    simp_all [generate_csr, RSA_generate_key, X509_REQ_set_pubkey, X509_REQ_new,
      X509_NAME_add_entry_by_txt, dnOk]
  obtain ⟨hk, hr⟩ := h
  subst hk
  exact hr.symm

/-! ## Claim theorems -/

/-- Claim C1, refuted on the code: with a readable and decodable CA
certificate file and a readable key file whose private-key decode
fails, load_ca still returns 1 (success) with a NULL key, because
line 189 tests the out-parameter pointer rather than the decoded key.
The claim says this run must return 0. -/
theorem c1_key_decode_failure_still_returns_success :
    PEM_read_bio_X509 (crt_to_pem caCrtGood).bytes = some caCrtGood ∧
    PEM_read_bio_PrivateKey badKeyPem = none ∧
    load_ca ⟨some (crt_to_pem caCrtGood).bytes, some badKeyPem⟩ =
      ⟨1, none, some caCrtGood⟩ := by
  refine ⟨rfl, rfl, rfl⟩

/-- Claim C3: main performs exactly the crypto-library initialization
calls and returns; its trace contains no load_ca call, no socket bind
or listen, no server loop, no issuance and no cleanup call. -/
theorem c3_main_calls_crypto_init_only :
    main = initCrypto ∧
    Event.loadCaCall ∉ main ∧
    Event.socketBind ∉ main ∧
    Event.socketListen ∉ main ∧
    Event.serverLoopCall ∉ main ∧
    Event.issueCall ∉ main ∧
    Event.cleanupCall ∉ main := by
  refine ⟨rfl, ?_, ?_, ?_, ?_, ?_, ?_⟩ <;> decide

/-- Claim C4, refuted on the code: load_ca performs no correspondence
check between the decoded key and the public key embedded in the
decoded certificate, so a mismatched pair (modulus 99 against 21) is
reported as success with both objects handed to the caller, instead of
the CaMismatchError outcome the claim requires. -/
theorem c4_mismatched_key_and_cert_reported_as_success :
    caKeyMismatch.pub ≠ caCrtGood.content.pubkey ∧
    load_ca ⟨some (crt_to_pem caCrtGood).bytes, some (key_to_pem caKeyMismatch).bytes⟩ =
      ⟨1, some caKeyMismatch, some caCrtGood⟩ := by
  refine ⟨by decide, rfl⟩

/-- Claim C5: every successful run of generate_csr yields a request
that embeds the public half of the freshly generated key, is
self-signed with SHA-256 (not MD5, not SHA-1), and whose
self-signature verifies against the embedded public key. -/
theorem c5_csr_self_signed_sha256_and_verifies (env : CsrEnv) (key : RSAKey)
    (req : X509_REQ) (h : generate_csr env = ⟨1, some key, some req⟩) :
    req.pubkey = some key.pub ∧
    (∃ s, req.signature = some s ∧ s.alg = HashAlg.sha256 ∧
      s.alg ≠ HashAlg.md5 ∧ s.alg ≠ HashAlg.sha1) ∧
    X509_REQ_verify req key.pub = true := by
  obtain ⟨hk, hr⟩ := generate_csr_success_shape env key req h
  subst hr
  refine ⟨rfl, ⟨_, rfl, rfl, by simp [EVP_sha256], by simp [EVP_sha256]⟩, ?_⟩
  simp [X509_REQ_verify, X509_REQ_sign]

/-- Witness for C5 at the all-successful environment with seed 0. -/
theorem c5_witness :
    generate_csr envOk = ⟨1, some keyOk, some reqOk⟩ ∧
    (reqOk.pubkey = some keyOk.pub ∧
      (∃ s, reqOk.signature = some s ∧ s.alg = HashAlg.sha256 ∧
        s.alg ≠ HashAlg.md5 ∧ s.alg ≠ HashAlg.sha1) ∧
      X509_REQ_verify reqOk keyOk.pub = true) :=
  ⟨rfl, c5_csr_self_signed_sha256_and_verifies envOk keyOk reqOk rfl⟩

/-- Claim C6: on every failing run of generate_csr (any of the
allocation, key-generation or signing steps fails) the function
returns 0 and both out-parameters hold no object: the error handler
discards the partially built key and request. -/
theorem c6_failure_discards_built_objects (env : CsrEnv)
    (h : env.pkeyNewOk = false ∨ env.reqNewOk = false ∨
      env.rsaGenOk = false ∨ env.signOk = false) :
    generate_csr env = ⟨0, none, none⟩ := by
  obtain ⟨pk, rq, rg, sg, seed⟩ := env
  cases pk <;> cases rq <;> cases rg <;> cases sg <;>
    simp_all [generate_csr, RSA_generate_key]

/-- Witness for C6 at the environment whose signing step fails. -/
theorem c6_witness :
    (envNoSign.pkeyNewOk = false ∨ envNoSign.reqNewOk = false ∨
      envNoSign.rsaGenOk = false ∨ envNoSign.signOk = false) ∧
    generate_csr envNoSign = ⟨0, none, none⟩ :=
  ⟨Or.inr (Or.inr (Or.inr rfl)),
    c6_failure_discards_built_objects envNoSign (Or.inr (Or.inr (Or.inr rfl)))⟩

/-- Claim C10: every successful run of generate_csr produces an RSA key
of exactly the configured strength: RSA_KEY_BITS = 4096 modulus bits
with public exponent RSA_F4 = 65537. -/
theorem c10_generated_key_is_rsa_4096_f4 (env : CsrEnv) (key : RSAKey)
    (req : X509_REQ) (h : generate_csr env = ⟨1, some key, some req⟩) :
    key.bits = RSA_KEY_BITS ∧ key.bits = 4096 ∧
    key.exp = RSA_F4 ∧ key.exp = 65537 := by
  obtain ⟨hk, hr⟩ := generate_csr_success_shape env key req h
  subst hk
  exact ⟨rfl, rfl, rfl, rfl⟩

/-- Witness for C10 at the all-successful environment with seed 0. -/
theorem c10_witness :
    generate_csr envOk = ⟨1, some keyOk, some reqOk⟩ ∧
    (keyOk.bits = RSA_KEY_BITS ∧ keyOk.bits = 4096 ∧
      keyOk.exp = RSA_F4 ∧ keyOk.exp = 65537) :=
  ⟨rfl, c10_generated_key_is_rsa_4096_f4 envOk keyOk reqOk rfl⟩

/-- Claim C9: key_to_pem writes the private key with no encryption
cipher and no passphrase, so its output is a plaintext PRIVATE KEY
block whose body is the raw key material, recoverable by the PEM
private-key reader. -/
theorem c9_key_to_pem_is_plaintext (key : RSAKey) :
    (key_to_pem key).bytes.header = PEM_HDR_KEY ∧
    (key_to_pem key).bytes.cipher = none ∧
    (key_to_pem key).bytes.body = encodeKey key ∧
    PEM_read_bio_PrivateKey (key_to_pem key).bytes = some key := by
  refine ⟨rfl, rfl, rfl, ?_⟩
  simp [key_to_pem, PEM_write_bio_PrivateKey, PEM_read_bio_PrivateKey,
    PEM_HDR_KEY, parseKey_encodeKey_nil]

/-- Claim C2: for every CSR with an embedded public key whose
self-signature verifies, and every CA identity, the issuer returns a
certificate whose signature verifies against the public half of the CA
key, whose issuer equals the CA root certificate subject, and whose
subject and public key equal those of the CSR. -/
theorem c2_issue_signs_and_binds_csr (ca_key : RSAKey) (ca_crt : X509)
    (csr : X509_REQ) (env : IssueEnv) (pk : PublicKey)
    (hpk : csr.pubkey = some pk) (hv : X509_REQ_verify csr pk = true) :
    ∃ crt, generate_signed_key_pair ca_key ca_crt csr env = some crt ∧
      X509_verify crt ca_key.pub = true ∧
      crt.content.issuer = ca_crt.content.subject ∧
      crt.content.subject = csr.subject ∧
      crt.content.pubkey = pk := by
  refine ⟨X509_sign
      ⟨⟨csr.subject, ca_crt.content.subject, env.serialSeed % 2 ^ 63, pk,
        env.now, env.now + env.lifetime⟩, none⟩ ca_key EVP_sha256, ?_, ?_, rfl, rfl, rfl⟩
  · simp [generate_signed_key_pair, hpk, hv]
  · simp [X509_sign, X509_verify]

/-- Witness for C2: a concrete self-signed request issued under a
concrete CA identity. -/
theorem c2_witness :
    ∃ crt, generate_signed_key_pair caKeyW caCrtGood reqOk issueEnvW = some crt ∧
      X509_verify crt caKeyW.pub = true ∧
      crt.content.issuer = caCrtGood.content.subject ∧
      crt.content.subject = reqOk.subject ∧
      crt.content.pubkey = keyOk.pub :=
  c2_issue_signs_and_binds_csr caKeyW caCrtGood reqOk issueEnvW keyOk.pub rfl (by decide)

/-- Claim C7: PEM encoding followed by PEM decoding is the identity,
for certificates through crt_to_pem and the X509 reader used by
load_ca, and for keys through key_to_pem and the private-key reader
used by load_ca. -/
theorem c7_pem_round_trip (crt : X509) (key : RSAKey) :
    PEM_read_bio_X509 (crt_to_pem crt).bytes = some crt ∧
    PEM_read_bio_PrivateKey (key_to_pem key).bytes = some key := by
  constructor
  · simp [crt_to_pem, PEM_write_bio_X509, PEM_read_bio_X509, PEM_HDR_CERT,
      parseX509_encodeX509_nil]
  · simp [key_to_pem, PEM_write_bio_PrivateKey, PEM_read_bio_PrivateKey,
      PEM_HDR_KEY, parseKey_encodeKey_nil]

/-- Claim C8: a malformed request anywhere in the stream of accepted
connections receives an error response and does not terminate the
loop: the connections before and after it are served exactly as they
would be on their own. -/
theorem c8_malformed_request_does_not_stop_loop (ca_key : RSAKey) (ca_crt : X509)
    (pre post : List (Request × IssueEnv)) (env : IssueEnv) :
    server_loop ca_key ca_crt (pre ++ (Request.malformed, env) :: post) =
      server_loop ca_key ca_crt pre ++
        Response.errorResponse :: server_loop ca_key ca_crt post := by
  induction pre with
  | nil => rfl
  | cons p rest ih =>
    obtain ⟨r, e⟩ := p
    simp [server_loop, ih]

end Auth
